import Mathlib

/-!
Shallow embedding of `oracle/feed_stork.go` from decentrio/injective-price-oracle.
Pure functions of the source are translated to Lean functions; the effectful
pull pipeline (`PullAssetPair`) is translated as a deterministic function of an
environment that records the outcome of each external call (URL parsing, dial,
write, the two reads, JSON unmarshalling), mirroring the source's control flow
branch by branch. Byte strings are `List Nat` with values below 256, machine
integers are `Int`/`Nat`.
-/

namespace Stork

/-- Hex digit decoding as in Go `encoding/hex.fromHexChar`:
digits, lowercase a-f and uppercase A-F. -/
def fromHexChar (c : Char) : Option Nat :=
  if '0' ≤ c ∧ c ≤ '9' then some (c.toNat - '0'.toNat)
  else if 'a' ≤ c ∧ c ≤ 'f' then some (c.toNat - 'a'.toNat + 10)
  else if 'A' ≤ c ∧ c ≤ 'F' then some (c.toNat - 'A'.toNat + 10)
  else none

/-- Greedy pair decoding as performed by Go `encoding/hex.DecodeString`
when its error is discarded: decode two characters at a time, and stop at the
first invalid character or at a trailing odd character, returning the bytes
decoded so far. This is exactly the `h` that `go-ethereum`'s
`common.Hex2Bytes` returns (it drops the error). -/
def decodeHexAux : List Char → List Nat
  | p :: q :: rest =>
    match fromHexChar p, fromHexChar q with
    | some a, some b => (16 * a + b) :: decodeHexAux rest
    | _, _ => []
  | _ => []

/-- go-ethereum `common.Hex2Bytes`: `h, _ := hex.DecodeString(str); return h`. -/
def Hex2Bytes (s : String) : List Nat :=
  decodeHexAux s.toList

/-- Strict hex decoding, `none` on any invalid character or odd length.
Modelled from the spec: the SignatureAssembler contract of section 4.4 demands
failure with a DecodeError on malformed hex; this is its decoding function,
used to compare the source's behaviour against that contract. -/
def decodeHexStrict : List Char → Option (List Nat)
  | [] => some []
  | p :: q :: rest =>
    match fromHexChar p, fromHexChar q, decodeHexStrict rest with
    | some a, some b, some t => some ((16 * a + b) :: t)
    | _, _, _ => none
  | _ :: [] => none

/-- Go `strings.TrimPrefix(s, "0x")`: drop one leading "0x" when present. -/
def trim0x (s : String) : String :=
  match s.toList with
  | '0' :: 'x' :: rest => String.mk rest
  | _ => s

/-- `Signature` of feed_stork.go: three hex components. -/
structure Signature where
  r : String
  s : String
  v : String
deriving DecidableEq

/-- `TimestampedSignature` of feed_stork.go. -/
structure TimestampedSignature where
  signature : Signature
  timestamp : Nat
  msgHash : String
deriving DecidableEq

/-- `cosmossdk.io/math.LegacyDec` is an arbitrary-precision fixed-point
decimal; the source only copies values of this type verbatim, so it is
embedded as `Int` (its underlying scaled big integer). -/
abbrev LegacyDec := Int

/-- `SignedPrice` of feed_stork.go (field `ExternalAssetID` is embedded as
`extAssetId`). -/
structure SignedPrice where
  publisherKey : String
  extAssetId : String
  signatureType : String
  price : LegacyDec
  timestampedSignature : TimestampedSignature
deriving DecidableEq

/-- `Data` of feed_stork.go: one asset record of the response envelope. -/
structure Data where
  timestamp : Int
  assetId : String
  signatureType : String
  trigger : String
  price : String
  signedPrices : List SignedPrice
deriving DecidableEq

/-- `messageResponse` of feed_stork.go. Go's `map[string]Data` is embedded as
an association list whose order is the (runtime-chosen, not guaranteed)
iteration order of the map; distinct orders of the same bindings denote the
same decoded map observed under different iteration orders. -/
structure MessageResponse where
  typeTag : String
  traceId : String
  data : List (String × Data)
deriving DecidableEq

/-- `oracletypes.SignedPriceOfAssetPair` (sdk-go): the canonical output entry.
Signature is raw bytes. -/
structure SignedPriceOfAssetPair where
  signature : List Nat
  publisherKey : String
  timestamp : Nat
  price : LegacyDec
deriving DecidableEq

/-- `oracletypes.AssetPair` (sdk-go): the canonical output. -/
structure AssetPair where
  assetId : String
  signedPrices : List SignedPriceOfAssetPair
deriving DecidableEq

/-- Go zero value of `Data` (what indexing a map with a missing key yields). -/
def zeroData : Data :=
  { timestamp := 0, assetId := "", signatureType := "", trigger := "",
    price := "", signedPrices := [] }

/-- Go zero value `oracletypes.AssetPair{}`. -/
def zeroAssetPair : AssetPair :=
  { assetId := "", signedPrices := [] }

/-- `CombineSignatureToString` of feed_stork.go: strip "0x" from each
component and concatenate R, S, V. -/
def CombineSignatureToString (signature : Signature) : String :=
  trim0x signature.r ++ trim0x signature.s ++ trim0x signature.v

/-- `ConvertSignedPrice` of feed_stork.go: signature bytes via
`common.Hex2Bytes` on the combined hex string; publisher key, timestamp and
price copied verbatim. -/
def ConvertSignedPrice (signeds : SignedPrice) : SignedPriceOfAssetPair :=
  { signature := Hex2Bytes (CombineSignatureToString signeds.timestampedSignature.signature)
    publisherKey := signeds.publisherKey
    timestamp := signeds.timestampedSignature.timestamp
    price := signeds.price }

/-- `ConvertDataToAssetPair` of feed_stork.go: the source builds the output
list by appending `ConvertSignedPrice data.SignedPrices[i]` for `i` in range,
left to right, starting from the empty slice. -/
def ConvertDataToAssetPair (data : Data) (assetId : String) : AssetPair :=
  { signedPrices :=
      data.signedPrices.foldl (fun acc sp => acc ++ [ConvertSignedPrice sp]) []
    assetId := assetId }

/-- `StorkFeedConfig` of feed_stork.go (raw TOML-decoded fields). -/
structure StorkFeedConfig where
  ProviderName : String
  Ticker : String
  PullInterval : String
  Url : String
  Header : String
  Message : String
  OracleType : String
deriving DecidableEq

/-- Modelled from the spec: the oracle classification enum comes from the
external sdk (`oracletypes.OracleType`, not under the embedded sources); it is
embedded as `Int` and only the two values the source references are fixed
(their sdk numeric values). -/
def OracleType_PriceFeed : Int := 2

/-- Modelled from the spec: sdk enum value named by `OracleType_Stork`,
see `OracleType_PriceFeed`. -/
def OracleType_Stork : Int := 12

/-- `storkPriceFeed` of feed_stork.go (logger and metrics tags, which carry no
behaviour relevant here, are omitted). The interval is in nanoseconds, as Go's
`time.Duration`. -/
structure StorkPriceFeed where
  ticker : String
  providerName : String
  interval : Int
  url : String
  header : String
  message : String
  oracleType : Int
deriving DecidableEq

/-- `github.com/pkg/errors.Wrapf`, whose documented behaviour is: if the
wrapped error is nil, the result is nil; otherwise a non-nil error whose
message prepends the format string. The source calls it on a nil error in the
minimum-interval branch. -/
def errorsWrapf (e : Option String) (msg : String) : Option String :=
  match e with
  | none => none
  | some m => some (msg ++ ": " ++ m)

/-- Go `time.Second` in nanoseconds. -/
def second : Int := 1000000000

/-- Go `time.Minute` in nanoseconds (`1 * time.Minute`, the default interval). -/
def minute : Int := 60 * second

/-- `NewStorkPriceFeed` of feed_stork.go. `parseDuration` stands for Go's
`time.ParseDuration` (standard library, external to the unit) and
`oracleTypeValue` for the sdk's `oracletypes.OracleType_value` name table;
both are passed in so every claim about construction is stated for the parse
results the claim assumes. The result mirrors Go's `(PricePuller, error)`
pair of nilable values. -/
def NewStorkPriceFeed (parseDuration : String → Except String Int)
    (oracleTypeValue : String → Option Int)
    (cfg : StorkFeedConfig) : Option StorkPriceFeed × Option String :=
  let intervalRes : Except (Option String) Int :=
    if 0 < cfg.PullInterval.length then
      match parseDuration cfg.PullInterval with
      | Except.error e =>
        Except.error (errorsWrapf (some e)
          ("failed to parse pull interval: " ++ cfg.PullInterval ++ " (expected format: 60s)"))
      | Except.ok interval =>
        if interval < 1 * second then
          Except.error (errorsWrapf none
            ("failed to parse pull interval: " ++ cfg.PullInterval ++ " (minimum interval = 1s)"))
        else
          Except.ok interval
    else
      Except.ok (1 * minute)
  match intervalRes with
  | Except.error e => (none, e)
  | Except.ok pullInterval =>
    if cfg.OracleType = "" then
      (some { ticker := cfg.Ticker, providerName := cfg.ProviderName,
              interval := pullInterval, url := cfg.Url, header := cfg.Header,
              message := cfg.Message, oracleType := OracleType_PriceFeed }, none)
    else
      match oracleTypeValue cfg.OracleType with
      | none => (none, some ("oracle type does not exist: " ++ cfg.OracleType))
      | some tmpType =>
        (some { ticker := cfg.Ticker, providerName := cfg.ProviderName,
                interval := pullInterval, url := cfg.Url, header := cfg.Header,
                message := cfg.Message, oracleType := tmpType }, none)

/-- `(*storkPriceFeed).Interval` of feed_stork.go. -/
def StorkPriceFeed.Interval (f : StorkPriceFeed) : Int :=
  f.interval

/-- `(*storkPriceFeed).Symbol` of feed_stork.go. -/
def StorkPriceFeed.Symbol (f : StorkPriceFeed) : String :=
  f.ticker

/-- `(*storkPriceFeed).OracleType` of feed_stork.go: it returns the constant
`oracletypes.OracleType_Stork` and never reads the stored `oracleType` field. -/
def StorkPriceFeed.OracleType (_f : StorkPriceFeed) : Int :=
  OracleType_Stork

/-- The cancellation state of the `context.Context` handed to a pull: whether
the context is cancelled before the second inbound frame would be read. The
source never inspects its `ctx` argument. -/
structure Ctx where
  cancelledBeforeSecondFrame : Bool
deriving DecidableEq

/-- Outcomes of the external calls `PullAssetPair` makes, in source order:
`url.Parse(f.url)`, `dialer.Dial`, `conn.WriteMessage`, the first and second
`conn.ReadMessage`, and `json.Unmarshal` applied to the second frame. Each
field records the error (or, for the unmarshal, error-or-decoded-envelope)
that the call produced in the run being described. -/
structure PullEnv where
  urlParseErr : Option String
  dialErr : Option String
  writeErr : Option String
  read1Err : Option String
  read2Err : Option String
  unmarshal : Except String MessageResponse

/-- Observable result of one `PullAssetPair` run. Modelled from the spec:
`log.Fatal` (xlab/suplog, external to the unit) is process-fatal — section 9
calls the source's dial/write paths "process-fatal logging" — so the `fatal`
outcome terminates the process and the `return` statements after `log.Fatal`
in the source are dead code; `panic` is a Go runtime panic; `ret` is a normal
`return pair, err`. -/
inductive PullOutcome where
  | fatal (msg : String)
  | panic (msg : String)
  | ret (pair : AssetPair) (err : Option String)
deriving DecidableEq

/-- Go map indexing `m[k]` on the association-list embedding of the map:
the bound value when the key is present, the zero value of `Data` otherwise. -/
def lookupData : List (String × Data) → String → Data
  | [], _ => zeroData
  | (k2, d) :: rest, k => if k2 = k then d else lookupData rest k

/-- `(*storkPriceFeed).PullAssetPair` of feed_stork.go, branch by branch:
URL-parse, dial and write failures hit `log.Fatal`; a failure of either read
logs and returns the zero `AssetPair` with a nil error; an unmarshal failure
returns the zero `AssetPair` with a nil error; otherwise all map keys are
collected in iteration order, the first collected key is indexed (a runtime
panic when the map is empty) and its record is converted. The `ctx` argument
is never consulted. -/
def PullAssetPair (_ctx : Ctx) (_f : StorkPriceFeed) (env : PullEnv) : PullOutcome :=
  match env.urlParseErr with
  | some e => PullOutcome.fatal ("Error parsing URL:" ++ e)
  | none =>
    match env.dialErr with
    | some e => PullOutcome.fatal ("Error connecting to WebSocket:" ++ e)
    | none =>
      match env.writeErr with
      | some e => PullOutcome.fatal ("Error writing message:" ++ e)
      | none =>
        match env.read1Err with
        | some _ => PullOutcome.ret zeroAssetPair none
        | none =>
          match env.read2Err with
          | some _ => PullOutcome.ret zeroAssetPair none
          | none =>
            match env.unmarshal with
            | Except.error _ => PullOutcome.ret zeroAssetPair none
            | Except.ok msgResp =>
              match msgResp.data.map Prod.fst with
              | [] => PullOutcome.panic ("index out of range")
              | a0 :: _ =>
                PullOutcome.ret (ConvertDataToAssetPair (lookupData msgResp.data a0) a0) none

/-- The returned error of a `ret` outcome (`none` for non-`ret` outcomes). -/
def retErr : PullOutcome → Option (Option String)
  | PullOutcome.ret _ e => some e
  | _ => none

/-- `github.com/shopspring/decimal.Decimal`: value times ten to the exponent. -/
structure Decimal where
  value : Int
  exp : Int
deriving DecidableEq

/-- Modelled from the spec: `zeroPrice` is declared in another file of this
repository (not under the embedded sources); it is the zero value of the
decimal type. -/
def zeroPrice : Decimal := { value := 0, exp := 0 }

/-- `(*storkPriceFeed).PullPrice` of feed_stork.go: unconditionally returns
`zeroPrice, nil`. -/
def PullPrice (_ctx : Ctx) (_f : StorkPriceFeed) : Decimal × Option String :=
  (zeroPrice, none)

/-! Concrete fixtures for the claim theorems, witnesses and counterexamples. -/

/-- A concrete `time.ParseDuration` fragment covering the strings the
fixtures use: "500ms" is half a second, "90s" is ninety seconds; everything
else fails to parse. -/
def parseDur : String → Except String Int :=
  fun str =>
    if str = "500ms" then Except.ok (500000000)
    else if str = "90s" then Except.ok (90 * second)
    else Except.error ("time: invalid duration " ++ str)

/-- A concrete fragment of the sdk's `OracleType_value` name table used by the
fixtures: Band is 1, PriceFeed is 2, Stork is 12. -/
def otvEx : String → Option Int :=
  fun str =>
    if str = "Band" then some 1
    else if str = "PriceFeed" then some 2
    else if str = "Stork" then some 12
    else none

/-- Config whose pull interval parses to 500ms, below the 1s minimum. -/
def cfg500 : StorkFeedConfig :=
  { ProviderName := "stork", Ticker := "BTCUSD", PullInterval := "500ms",
    Url := "wss://example.org/feed", Header := "user:pass", Message := "subscribe",
    OracleType := "" }

/-- Config whose pull interval parses to 90s. -/
def cfg90 : StorkFeedConfig :=
  { cfg500 with PullInterval := "90s" }

/-- Config with an empty pull-interval string and an empty oracle-type name. -/
def cfgEmptyOT : StorkFeedConfig :=
  { cfg500 with PullInterval := "" }

/-- Config with an empty pull-interval string and oracle type "Band". -/
def cfgBand : StorkFeedConfig :=
  { cfg500 with PullInterval := "", OracleType := "Band" }

/-- Config with an empty pull-interval string and an unknown oracle type. -/
def cfgUnknownOT : StorkFeedConfig :=
  { cfg500 with PullInterval := "", OracleType := "Volcano" }

/-- A concrete feed instance. -/
def feed0 : StorkPriceFeed :=
  { ticker := "BTCUSD", providerName := "stork", interval := minute,
    url := "wss://example.org/feed", header := "user:pass",
    message := "subscribe", oracleType := OracleType_PriceFeed }

/-- A feed configured for ticker "AAAUSD". -/
def feedA : StorkPriceFeed :=
  { feed0 with ticker := "AAAUSD" }

/-- A context that is not cancelled. -/
def ctx0 : Ctx := { cancelledBeforeSecondFrame := false }

/-- A context cancelled before the second inbound frame. -/
def ctxCancelled : Ctx := { cancelledBeforeSecondFrame := true }

/-- Environment in which every external call succeeds but the decoded
envelope is left unspecified (overridden per fixture). -/
def envOk : PullEnv :=
  { urlParseErr := none, dialErr := none, writeErr := none,
    read1Err := none, read2Err := none,
    unmarshal := Except.error ("unused") }

/-- Run in which `url.Parse` fails. -/
def envBadUrl : PullEnv :=
  { envOk with urlParseErr := some ("missing protocol scheme") }

/-- Run in which the websocket dial fails. -/
def envDialFail : PullEnv :=
  { envOk with dialErr := some ("connection refused") }

/-- Run in which writing the subscription message fails. -/
def envWriteFail : PullEnv :=
  { envOk with writeErr := some ("broken pipe") }

/-- Run in which the first read fails. -/
def envReadFail : PullEnv :=
  { envOk with read1Err := some ("unexpected EOF") }

/-- Run in which the second read fails. -/
def envRead2Fail : PullEnv :=
  { envOk with read2Err := some ("unexpected EOF") }

/-- Run in which the second frame is not valid JSON. -/
def envDecodeFail : PullEnv :=
  { envOk with unmarshal := Except.error ("invalid character") }

/-- Run whose decoded envelope has an empty `data` mapping. -/
def envEmptyData : PullEnv :=
  { envOk with
    unmarshal := Except.ok { typeTag := "oracle_prices", traceId := "t1", data := [] } }

/-- Asset record for "AAAUSD". -/
def dA : Data :=
  { timestamp := 1700000000, assetId := "AAAUSD", signatureType := "evm",
    trigger := "timer", price := "7", signedPrices := [] }

/-- Asset record for "BBBUSD". -/
def dB : Data :=
  { timestamp := 1700000000, assetId := "BBBUSD", signatureType := "evm",
    trigger := "timer", price := "9", signedPrices := [] }

/-- Run whose envelope binds "AAAUSD" then "BBBUSD", i.e. the map iteration
happened to visit "AAAUSD" first. -/
def envOrderAB : PullEnv :=
  { envOk with
    unmarshal := Except.ok
      { typeTag := "oracle_prices", traceId := "t2",
        data := [("AAAUSD", dA), ("BBBUSD", dB)] } }

/-- Same decoded envelope as `envOrderAB` (same key-record bindings), but the
map iteration happened to visit "BBBUSD" first. -/
def envOrderBA : PullEnv :=
  { envOk with
    unmarshal := Except.ok
      { typeTag := "oracle_prices", traceId := "t2",
        data := [("BBBUSD", dB), ("AAAUSD", dA)] } }

/-- The spec's worked signature example: r "0xAB", s "CD", v "0x01". -/
def sigEx : Signature := { r := "0xAB", s := "CD", v := "0x01" }

/-- Signed price carrying `sigEx`. -/
def spEx : SignedPrice :=
  { publisherKey := "0xpub1", extAssetId := "AAAUSD-EXT", signatureType := "evm",
    price := 7230000000000000000,
    timestampedSignature := { signature := sigEx, timestamp := 1700000001, msgHash := "0xmh" } }

/-- A malformed signature: its v component is not valid hex, and the
concatenated hex string "ABCDZ" has odd length. -/
def sigBad : Signature := { r := "0xAB", s := "CD", v := "0xZ" }

/-- Signed price carrying `sigBad`. -/
def spBad : SignedPrice :=
  { publisherKey := "0xpub2", extAssetId := "AAAUSD-EXT", signatureType := "evm",
    price := 5,
    timestampedSignature := { signature := sigBad, timestamp := 1700000002, msgHash := "0xmh2" } }

/-! Helper lemmas. -/

/-- The append-accumulating fold of `ConvertDataToAssetPair` builds the map of
`ConvertSignedPrice` over the input, in input order. -/
theorem foldl_append_eq_map (l : List SignedPrice) :
    ∀ acc : List SignedPriceOfAssetPair,
      List.foldl (fun acc sp => acc ++ [ConvertSignedPrice sp]) acc l
        = acc ++ l.map ConvertSignedPrice := by
  induction l with
  | nil => intro acc; simp
  | cons hd tl ih => intro acc; simp [List.foldl, ih]

/-- On an even-length string of hex digits, strict decoding succeeds and
agrees with the greedy error-discarding decode of `Hex2Bytes`. -/
theorem strict_eq_greedy :
    ∀ cs : List Char, (∀ c ∈ cs, (fromHexChar c).isSome) → cs.length % 2 = 0 →
      decodeHexStrict cs = some (decodeHexAux cs)
  | [], _, _ => rfl
  | [_], _, hev => by simp at hev
  | c1 :: c2 :: rest, h, hev => by
    have h1 := h c1 (by simp)
    have h2 := h c2 (by simp)
    have hr : ∀ c ∈ rest, (fromHexChar c).isSome := fun c hc => h c (by simp [hc])
    have hev2 : rest.length % 2 = 0 := by
      have hlen : (c1 :: c2 :: rest).length = rest.length + 2 := by simp [List.length]
      omega
    have ih := strict_eq_greedy rest hr hev2
    obtain ⟨a, ha⟩ := Option.isSome_iff_exists.mp h1
    obtain ⟨b, hb⟩ := Option.isSome_iff_exists.mp h2
    simp [decodeHexStrict, decodeHexAux, ha, hb, ih]

/-- When strict decoding fails (invalid character or odd length), the greedy
error-discarding decode of `Hex2Bytes` still yields a byte list, and that
list covers strictly fewer than all character pairs of the input. -/
theorem strict_none_truncates :
    ∀ cs : List Char, decodeHexStrict cs = none →
      2 * (decodeHexAux cs).length < cs.length
  | [], h => by simp [decodeHexStrict] at h
  | [_], _ => by simp [decodeHexAux]
  | c1 :: c2 :: rest, h => by
    cases ha : fromHexChar c1 with
    | none => simp [decodeHexAux, ha]
    | some a =>
      cases hb : fromHexChar c2 with
      | none => simp [decodeHexAux, ha, hb]
      | some b =>
        cases hrest : decodeHexStrict rest with
        | some t => simp [decodeHexStrict, ha, hb, hrest] at h
        | none =>
          have ih := strict_none_truncates rest hrest
          simp [decodeHexAux, ha, hb]
          omega

/-! Claim theorems. -/

/-- C1: the claim says every pull failure (malformed endpoint, dial, write,
read, decode) surfaces as a non-nil returned error, never terminating the
process and never yielding a zero `AssetPair` with a nil error. The code does
the opposite on every failure category: URL-parse, dial and write failures
hit the process-fatal log path, and read and decode failures return the zero
`AssetPair` together with a nil error. -/
theorem pullAssetPair_failures_fatal_or_silent :
    PullAssetPair ctx0 feed0 envBadUrl
      = PullOutcome.fatal ("Error parsing URL:" ++ "missing protocol scheme") ∧
    PullAssetPair ctx0 feed0 envDialFail
      = PullOutcome.fatal ("Error connecting to WebSocket:" ++ "connection refused") ∧
    PullAssetPair ctx0 feed0 envWriteFail
      = PullOutcome.fatal ("Error writing message:" ++ "broken pipe") ∧
    PullAssetPair ctx0 feed0 envReadFail = PullOutcome.ret zeroAssetPair none ∧
    PullAssetPair ctx0 feed0 envRead2Fail = PullOutcome.ret zeroAssetPair none ∧
    PullAssetPair ctx0 feed0 envDecodeFail = PullOutcome.ret zeroAssetPair none :=
  ⟨rfl, rfl, rfl, rfl, rfl, rfl⟩

/-- C2: the claim says a decoded envelope with an empty `data` mapping yields
a ProtocolError and never a panic. The code collects the (zero) keys and
indexes `assetIds[0]`, a runtime panic. -/
theorem pullAssetPair_empty_envelope_panics :
    PullAssetPair ctx0 feed0 envEmptyData = PullOutcome.panic ("index out of range") :=
  rfl

/-- C3: the claim says an interval parsing below 1 second makes construction
fail with a non-nil ConfigError. The code's minimum-interval branch wraps a
nil error (`errors.Wrapf(nil, ...)` is nil), so construction returns a nil
feed together with a nil error for "500ms"; the claim's other two parts hold:
"90s" builds a feed whose `Interval()` is the parsed 90 seconds, and an empty
interval string defaults to one minute. -/
theorem newStorkPriceFeed_subsecond_interval_nil_nil :
    NewStorkPriceFeed parseDur otvEx cfg500 = (none, none) ∧
    ((NewStorkPriceFeed parseDur otvEx cfg90).1.map StorkPriceFeed.Interval)
      = some (90 * second) ∧
    (NewStorkPriceFeed parseDur otvEx cfg90).2 = none ∧
    ((NewStorkPriceFeed parseDur otvEx cfgEmptyOT).1.map StorkPriceFeed.Interval)
      = some minute :=
  ⟨by decide, by decide, by decide, by decide⟩

/-- C4 counterexample: the claim says a Signature with an invalid-hex
component (or odd concatenated length) makes assembly fail rather than
produce a byte sequence. For `sigBad` (r "0xAB", s "CD", v "0xZ": invalid
character and odd total length, so strict decoding fails), the code's
assembly nonetheless produces the byte sequence [171, 205]. -/
theorem convertSignedPrice_malformed_hex_cex :
    decodeHexStrict ((CombineSignatureToString sigBad).toList) = none ∧
    (ConvertSignedPrice spBad).signature = [171, 205] :=
  ⟨by decide, by decide⟩

/-- C4 amended: on any Signature whose concatenated stripped components are
not strictly decodable hex (invalid character or odd length), assembly does
not fail: it silently produces the greedy decode of the leading valid hex
pairs, a byte list covering strictly fewer than all character pairs of the
concatenated string. -/
theorem convertSignedPrice_malformed_hex_truncates (sp : SignedPrice)
    (h : decodeHexStrict
        ((CombineSignatureToString sp.timestampedSignature.signature).toList) = none) :
    2 * (ConvertSignedPrice sp).signature.length
      < (CombineSignatureToString sp.timestampedSignature.signature).toList.length :=
  strict_none_truncates _ h

/-- C4 witness: the amended theorem applied to the concrete malformed
signature `spBad`. -/
theorem convertSignedPrice_malformed_hex_truncates_witness :
    2 * (ConvertSignedPrice spBad).signature.length
      < (CombineSignatureToString spBad.timestampedSignature.signature).toList.length :=
  convertSignedPrice_malformed_hex_truncates spBad (by decide)

/-- C5: the claim says asset selection from the decoded envelope is
deterministic — the record whose identifier matches the configured ticker —
for any two runs on the same envelope. The code selects the first key of the
map's (not guaranteed) iteration order and never consults the ticker: on the
same two-asset envelope observed under its two iteration orders, a feed
configured for "AAAUSD" is handed "AAAUSD" in one run and "BBBUSD" in the
other. -/
theorem pullAssetPair_selection_follows_iteration_order :
    feedA.ticker = "AAAUSD" ∧
    PullAssetPair ctx0 feedA envOrderAB
      = PullOutcome.ret (ConvertDataToAssetPair dA ("AAAUSD")) none ∧
    PullAssetPair ctx0 feedA envOrderBA
      = PullOutcome.ret (ConvertDataToAssetPair dB ("BBBUSD")) none ∧
    ((ConvertDataToAssetPair dA ("AAAUSD")).assetId
      == (ConvertDataToAssetPair dB ("BBBUSD")).assetId) = false :=
  ⟨rfl, by decide, by decide, by decide⟩

/-- C6 counterexample: the claim says an empty oracle-type name makes the
feed's exposed classification (`OracleType()`) the generic price-feed value.
Construction with an empty name succeeds, but the exposed classification is
the Stork value, which differs from the price-feed value. -/
theorem oracleType_empty_name_exposes_stork_cex :
    (NewStorkPriceFeed parseDur otvEx cfgEmptyOT).2 = none ∧
    ((NewStorkPriceFeed parseDur otvEx cfgEmptyOT).1.map StorkPriceFeed.OracleType)
      = some OracleType_Stork ∧
    (OracleType_Stork == OracleType_PriceFeed) = false :=
  ⟨by decide, by decide, by decide⟩

/-- C6 amended: construction validates the configured oracle-type name — an
empty name succeeds and stores the generic price-feed value, a recognized
name succeeds and stores the matching enum value, an unknown name fails with
a non-nil error — but the feed's exposed `OracleType()` always returns the
Stork classification regardless of the stored value. (Stated for configs with
an empty interval string, so the interval branch takes its default.) -/
theorem newStorkPriceFeed_oracleType_validated_but_stork_exposed
    (parseDuration : String → Except String Int)
    (otv : String → Option Int) (cfg : StorkFeedConfig)
    (hiv : cfg.PullInterval = "") :
    (cfg.OracleType = "" →
      (NewStorkPriceFeed parseDuration otv cfg).2 = none ∧
      ((NewStorkPriceFeed parseDuration otv cfg).1.map
        (fun f => (f.oracleType, StorkPriceFeed.OracleType f)))
        = some (OracleType_PriceFeed, OracleType_Stork)) ∧
    (∀ v : Int, cfg.OracleType ≠ "" → otv cfg.OracleType = some v →
      (NewStorkPriceFeed parseDuration otv cfg).2 = none ∧
      ((NewStorkPriceFeed parseDuration otv cfg).1.map
        (fun f => (f.oracleType, StorkPriceFeed.OracleType f)))
        = some (v, OracleType_Stork)) ∧
    (cfg.OracleType ≠ "" → otv cfg.OracleType = none →
      (NewStorkPriceFeed parseDuration otv cfg).1 = none ∧
      (NewStorkPriceFeed parseDuration otv cfg).2
        = some ("oracle type does not exist: " ++ cfg.OracleType)) := by
  refine ⟨?_, ?_, ?_⟩
  · intro h0
    simp [NewStorkPriceFeed, hiv, h0, StorkPriceFeed.OracleType]
  · intro v hne hv
    simp [NewStorkPriceFeed, hiv, hne, hv, StorkPriceFeed.OracleType]
  · intro hne hv
    simp [NewStorkPriceFeed, hiv, hne, hv]

/-- C6 witness: the amended theorem applied to a recognized name ("Band",
stored value 1 under the fixture table) and to an unknown name ("Volcano"). -/
theorem newStorkPriceFeed_oracleType_witness :
    ((NewStorkPriceFeed parseDur otvEx cfgBand).2 = none ∧
      ((NewStorkPriceFeed parseDur otvEx cfgBand).1.map
        (fun f => (f.oracleType, StorkPriceFeed.OracleType f)))
        = some (1, OracleType_Stork)) ∧
    ((NewStorkPriceFeed parseDur otvEx cfgUnknownOT).1 = none ∧
      (NewStorkPriceFeed parseDur otvEx cfgUnknownOT).2
        = some ("oracle type does not exist: " ++ "Volcano")) :=
  ⟨(newStorkPriceFeed_oracleType_validated_but_stork_exposed
      parseDur otvEx cfgBand rfl).2.1 1 (by decide) (by decide),
   (newStorkPriceFeed_oracleType_validated_but_stork_exposed
      parseDur otvEx cfgUnknownOT rfl).2.2 (by decide) (by decide)⟩

/-- C7: for a Signature whose stripped, concatenated components form an
even-length string of hex digits, the code's assembly equals stripping "0x"
from each component independently, concatenating R, S, V, and hex-decoding
the result. -/
theorem convertSignedPrice_assembles_stripped_concatenated_hex (sp : SignedPrice)
    (hdig : ∀ c ∈ (CombineSignatureToString sp.timestampedSignature.signature).toList,
      (fromHexChar c).isSome)
    (hev : (CombineSignatureToString sp.timestampedSignature.signature).toList.length % 2
      = 0) :
    CombineSignatureToString sp.timestampedSignature.signature
      = trim0x sp.timestampedSignature.signature.r
        ++ trim0x sp.timestampedSignature.signature.s
        ++ trim0x sp.timestampedSignature.signature.v ∧
    decodeHexStrict ((CombineSignatureToString sp.timestampedSignature.signature).toList)
      = some ((ConvertSignedPrice sp).signature) :=
  ⟨rfl, strict_eq_greedy _ hdig hev⟩

/-- C7 witness: the spec's worked example, r "0xAB", s "CD", v "0x01",
assembles to the bytes AB CD 01 (171, 205, 1). -/
theorem convertSignedPrice_assembly_witness :
    decodeHexStrict ((CombineSignatureToString spEx.timestampedSignature.signature).toList)
      = some ((ConvertSignedPrice spEx).signature) ∧
    (ConvertSignedPrice spEx).signature = [171, 205, 1] :=
  ⟨(convertSignedPrice_assembles_stripped_concatenated_hex spEx
      (by decide) (by decide)).2, by decide⟩

/-- C8: conversion maps every signed-price entry, in input order with none
dropped, deduplicated or re-sorted (the output list is exactly the map of the
per-entry conversion over the input list), and each output entry copies the
publisher key, timestamp and price verbatim while its signature bytes come
from the assembly of the entry's hex components. -/
theorem convertDataToAssetPair_order_preserving_verbatim (d : Data) (aid : String) :
    (ConvertDataToAssetPair d aid).signedPrices = d.signedPrices.map ConvertSignedPrice ∧
    (ConvertDataToAssetPair d aid).assetId = aid ∧
    ∀ sp : SignedPrice,
      (ConvertSignedPrice sp).publisherKey = sp.publisherKey ∧
      (ConvertSignedPrice sp).timestamp = sp.timestampedSignature.timestamp ∧
      (ConvertSignedPrice sp).price = sp.price ∧
      (ConvertSignedPrice sp).signature
        = Hex2Bytes (CombineSignatureToString sp.timestampedSignature.signature) := by
  refine ⟨?_, rfl, fun sp => ⟨rfl, rfl, rfl, rfl⟩⟩
  simpa using foldl_append_eq_map d.signedPrices []

/-- C9: the claim says a cancellation firing before the second frame aborts
the pull with a CancelledError. The code never consults its context: the
outcome of a pull is identical for any two cancellation states of the
context, and whenever the pull returns (rather than hitting the fatal or
panic path) its returned error is nil — so no cancellation, and no error at
all, is ever reported. -/
theorem pullAssetPair_ignores_cancellation (c c' : Ctx) (f : StorkPriceFeed)
    (env : PullEnv) :
    PullAssetPair c f env = PullAssetPair c' f env ∧
    (retErr (PullAssetPair c f env) = none ∨ retErr (PullAssetPair c f env) = some none) := by
  refine ⟨rfl, ?_⟩
  obtain ⟨u, dl, w, r1, r2, um⟩ := env
  cases u with
  | some e => left; rfl
  | none =>
    cases dl with
    | some e => left; rfl
    | none =>
      cases w with
      | some e => left; rfl
      | none =>
        cases r1 with
        | some e => right; rfl
        | none =>
          cases r2 with
          | some e => right; rfl
          | none =>
            cases um with
            | error e => right; rfl
            | ok msg =>
              obtain ⟨ty, tr, dlist⟩ := msg
              cases dlist with
              | nil => left; rfl
              | cons p tl => right; rfl

/-- C10: `PullPrice` returns the zero decimal price with a nil error for
every context and feed, independent of all configuration. -/
theorem pullPrice_constant_zero (c c' : Ctx) (f f' : StorkPriceFeed) :
    PullPrice c f = (zeroPrice, none) ∧ PullPrice c f = PullPrice c' f' :=
  ⟨rfl, rfl⟩

end Stork
